import Mathlib

/-! GoFusionCache: a two-tier cache facade

A shallow embedding of `src/fusion_cache.go`.

* Go `error` values are `Option GoError` (`none` is `nil`).
* The two tiers are values of the interface `Cache[K, V]`; a tier is a pair of
  state-passing functions over a private state type.
* The two tiers have separate states: a call on one tier does not change the
  other. A loader is a function of the key. Tier methods and loaders return;
  the only panic modelled is the one `Get` itself can raise at line 57.
* Every call the orchestrator makes on a tier or on a loader is appended to a
  trace, so that "is never queried" and "is written once" are statements about
  the trace.
* `reflect.ValueOf(v).Interface() != nil` is modelled after package `reflect`:
  `ValueOf` of the nil interface is the zero `Value`, every method of the zero
  `Value` other than `IsValid`, `Kind` and `String` panics, and `Interface` of
  a valid `Value` is an interface holding that value, which is never nil.
-/

namespace GoFusionCache

/-! ## Errors -/

/-- Go error values: the two package-level sentinels, any other leaf error, and
an error wrapping another one (its `Unwrap` method returns `inner`). -/
inductive GoError where
  | memoryNotFound
  | redisNotFound
  | other (text : String)
  | wrap (text : String) (inner : GoError)
  deriving DecidableEq, Repr

/-- Sentinel `ErrMemoryNotFound = errors.New("memory not found")`. -/
def ErrMemoryNotFound : GoError := GoError.memoryNotFound

/-- Sentinel `ErrRedisNotFound = errors.New("redis not found")`. -/
def ErrRedisNotFound : GoError := GoError.redisNotFound

/-- Walk of the `Unwrap` chain of a non-nil error, comparing each link with the
target. The errors modelled have no `Is` method of their own and unwrap to at
most one error; the targets used are the two sentinels. -/
def GoError.is : GoError → GoError → Bool
  | GoError.wrap t inner, target =>
      decide (GoError.wrap t inner = target) || GoError.is inner target
  | err, target => decide (err = target)

/-- Library function `errors.Is(err, target)`: false on a nil `err`. -/
def errorsIs (err : Option GoError) (target : GoError) : Bool :=
  match err with
  | none => false
  | some e => e.is target

/-! ## Values and reflection -/

/-- What the orchestrator needs to know of the Go type bound to `V`: which of
its values become the nil interface when converted to `any`. For a
non-interface type (string, int, a pointer, a struct) there is none; for an
interface type it is the nil value. -/
class GoValue (V : Type) where
  isNilInterface : V → Bool

/-- Go `string` is not an interface type. -/
instance : GoValue String where
  isNilInterface _ := false

/-- Go `int` is not an interface type. -/
instance : GoValue Nat where
  isNilInterface _ := false

/-- A value of Go type `any` that is either nil or holds a string. -/
inductive AnyString where
  | nil
  | str (s : String)
  deriving DecidableEq, Repr

/-- The nil value of an interface type is the nil interface. -/
instance : GoValue AnyString where
  isNilInterface v := decide (v = AnyString.nil)

/-- A `reflect.Value`: the zero Value, or a valid Value holding `v`. -/
inductive ReflectValue (V : Type) where
  | zero
  | valid (v : V)

/-- Library function `reflect.ValueOf(v)`; `ValueOf(nil)` is the zero Value. -/
def reflectValueOf {V : Type} [GoValue V] (v : V) : ReflectValue V :=
  if GoValue.isNilInterface v then ReflectValue.zero else ReflectValue.valid v

/-- Method `Value.Interface()`: panics on the zero Value, otherwise returns a
non-nil interface (`some`) holding the value. -/
def ReflectValue.Interface {V : Type} : ReflectValue V → Except String (Option V)
  | ReflectValue.zero => Except.error "reflect: call of reflect.Value.Interface on zero Value"
  | ReflectValue.valid v => Except.ok (some v)

/-! ## Tiers, loaders, traces -/

/-- A `context.Context`, identified by a number. -/
structure Context where
  id : Nat
  deriving DecidableEq, Repr

/-- Interface `Cache[K, V]` over a tier with private state `S`. -/
structure Cache (K V S : Type) where
  GetItem : Context → K → S → (V × Option GoError) × S
  SetItem : Context → K → V → S → Option GoError × S

/-- Interface `MemoryCache[K, V]` embeds `Cache[K, V]`. -/
abbrev MemoryCache (K V S : Type) := Cache K V S

/-- Interface `RedisCache[K, V]` embeds `Cache[K, V]`. -/
abbrev RedisCache (K V S : Type) := Cache K V S

/-- Struct `FusionCache[K, V]`. -/
structure FusionCache (K V SL SR : Type) where
  mc : MemoryCache K V SL
  rc : RedisCache K V SR

/-- Function type `Loader[K, V] func(K) (V, error)`. -/
abbrev Loader (K V : Type) := K → V × Option GoError

/-- Constructor `New(mc, rc)`. -/
def New {K V SL SR : Type} (mc : MemoryCache K V SL) (rc : RedisCache K V SR) :
    FusionCache K V SL SR :=
  ⟨mc, rc⟩

/-- One call made by the orchestrator. A loader call records the position of
the loader in the argument list. -/
inductive Event (K V : Type) where
  | localGet (c : Context) (k : K)
  | localSet (c : Context) (k : K) (v : V)
  | remoteGet (c : Context) (k : K)
  | remoteSet (c : Context) (k : K) (v : V)
  | loaderCall (i : Nat) (k : K)
  deriving DecidableEq, Repr

/-- Event on the Remote Tier. -/
def Event.isRemote {K V : Type} : Event K V → Bool
  | Event.remoteGet _ _ => true
  | Event.remoteSet _ _ _ => true
  | _ => false

/-- Event that is a `SetItem` on either tier. -/
def Event.isSet {K V : Type} : Event K V → Bool
  | Event.localSet _ _ _ => true
  | Event.remoteSet _ _ _ => true
  | _ => false

/-- Event that is a loader invocation. -/
def Event.isLoader {K V : Type} : Event K V → Bool
  | Event.loaderCall _ _ => true
  | _ => false

/-- The state of both tiers and the calls made so far, oldest first. -/
structure World (K V SL SR : Type) where
  mc : SL
  rc : SR
  trace : List (Event K V)

/-- How a call ends: it returns `(v, err)`, or it panics. -/
inductive Outcome (V : Type) where
  | returned (v : V) (err : Option GoError)
  | panicked (msg : String)
  deriving DecidableEq, Repr

section Orchestrator

variable {K V SL SR : Type}

/-- Call `fc.mc.GetItem(c, k)`. -/
def FusionCache.mcGetItem (fc : FusionCache K V SL SR) (c : Context) (k : K)
    (w : World K V SL SR) : (V × Option GoError) × World K V SL SR :=
  ((fc.mc.GetItem c k w.mc).1,
    ⟨(fc.mc.GetItem c k w.mc).2, w.rc, w.trace ++ [Event.localGet c k]⟩)

/-- Call `fc.mc.SetItem(c, k, v)`. -/
def FusionCache.mcSetItem (fc : FusionCache K V SL SR) (c : Context) (k : K) (v : V)
    (w : World K V SL SR) : Option GoError × World K V SL SR :=
  ((fc.mc.SetItem c k v w.mc).1,
    ⟨(fc.mc.SetItem c k v w.mc).2, w.rc, w.trace ++ [Event.localSet c k v]⟩)

/-- Call `fc.rc.GetItem(c, k)`. -/
def FusionCache.rcGetItem (fc : FusionCache K V SL SR) (c : Context) (k : K)
    (w : World K V SL SR) : (V × Option GoError) × World K V SL SR :=
  ((fc.rc.GetItem c k w.rc).1,
    ⟨w.mc, (fc.rc.GetItem c k w.rc).2, w.trace ++ [Event.remoteGet c k]⟩)

/-- Call `fc.rc.SetItem(c, k, v)`. -/
def FusionCache.rcSetItem (fc : FusionCache K V SL SR) (c : Context) (k : K) (v : V)
    (w : World K V SL SR) : Option GoError × World K V SL SR :=
  ((fc.rc.SetItem c k v w.rc).1,
    ⟨w.mc, (fc.rc.SetItem c k v w.rc).2, w.trace ++ [Event.remoteSet c k v]⟩)

/-- The loop `for _, loader := range loaders` of `Get` (lines 60-73) followed by
the final `return v, nil` (line 75). `i` is the position of the next loader and
`v` the current value of the variable `v`. A loader that succeeds and whose two
writes succeed does not leave the loop. -/
def FusionCache.loaderLoop (fc : FusionCache K V SL SR) (c : Context) (k : K) :
    List (Loader K V) → Nat → V → World K V SL SR → Outcome V × World K V SL SR
  | [], _, v, w => (Outcome.returned v none, w)
  | loader :: rest, i, _, w =>
    let w0 : World K V SL SR := ⟨w.mc, w.rc, w.trace ++ [Event.loaderCall i k]⟩
    match loader k with
    | (v, some err) => (Outcome.returned v (some err), w0)
    | (v, none) =>
      match fc.mcSetItem c k v w0 with
      | (some err, w1) => (Outcome.returned v (some err), w1)
      | (none, w1) =>
        match fc.rcSetItem c k v w1 with
        | (some err, w2) => (Outcome.returned v (some err), w2)
        | (none, w2) => fc.loaderLoop c k rest (i + 1) v w2

/-- Method `FusionCache.Get(c, k, loaders...)` (lines 43-76). -/
def FusionCache.Get [GoValue V] (fc : FusionCache K V SL SR) (c : Context) (k : K)
    (loaders : List (Loader K V)) (w : World K V SL SR) :
    Outcome V × World K V SL SR :=
  match fc.mcGetItem c k w with
  | ((v, none), w1) => (Outcome.returned v none, w1)
  | ((v, some err), w1) =>
    if !errorsIs (some err) ErrMemoryNotFound then
      (Outcome.returned v (some err), w1)
    else
      match fc.rcGetItem c k w1 with
      | ((v, err), w2) =>
        if err.isSome && !errorsIs err ErrRedisNotFound then
          (Outcome.returned v err, w2)
        else
          match (reflectValueOf v).Interface with
          | Except.error msg => (Outcome.panicked msg, w2)
          | Except.ok boxed =>
            if boxed.isSome then
              -- line 58: the error of this SetItem is assigned and not read again
              (Outcome.returned v none, (fc.mcSetItem c k v w2).2)
            else
              fc.loaderLoop c k loaders 0 v w2

/-- Method `FusionCache.Set(c, k, v)` (lines 78-88). -/
def FusionCache.Set (fc : FusionCache K V SL SR) (c : Context) (k : K) (v : V)
    (w : World K V SL SR) : Option GoError × World K V SL SR :=
  match fc.mcSetItem c k v w with
  | (some err, w1) => (some err, w1)
  | (none, w1) =>
    match fc.rcSetItem c k v w1 with
    | (some err, w2) => (some err, w2)
    | (none, w2) => (none, w2)

end Orchestrator

/-! ## Default adapters -/

/-- The store of a `gocache.Cache` whose items are all written with
`NoExpiration`: a finite map, newest binding first. -/
abbrev GoCacheStore := List (String × String)

/-- Library method `(*gocache.Cache).Get`: the item and whether it was found. -/
def GoCacheStore.Get (s : GoCacheStore) (k : String) : Option String :=
  s.lookup k

/-- Library method `(*gocache.Cache).Set(k, v, NoExpiration)`: replaces the item. -/
def GoCacheStore.Set (s : GoCacheStore) (k v : String) : GoCacheStore :=
  (k, v) :: s.filter (fun p => p.1 != k)

/-- Method `DefaultMemoryCacheImpl.GetItem` (lines 94-100). -/
def DefaultMemoryCacheImpl.GetItem (_c : Context) (k : String) (d : GoCacheStore) :
    (String × Option GoError) × GoCacheStore :=
  match d.Get k with
  | none => (("", some ErrMemoryNotFound), d)
  | some v => ((v, none), d)

/-- Method `DefaultMemoryCacheImpl.SetItem` (lines 102-105). -/
def DefaultMemoryCacheImpl.SetItem (_c : Context) (k : String) (v : String) (d : GoCacheStore) :
    Option GoError × GoCacheStore :=
  (none, d.Set k v)

/-- The default Local Tier, as built by `NewDefaultMemoryCache`. -/
def DefaultMemoryCacheImpl : MemoryCache String String GoCacheStore :=
  ⟨DefaultMemoryCacheImpl.GetItem, DefaultMemoryCacheImpl.SetItem⟩

/-- A `redis.Client` seen from the adapter: the keys held by the server, and a
fault that, when present, makes every command fail with it (connection
refused, timeout). -/
structure RedisClient where
  data : List (String × String)
  fault : Option GoError
  deriving DecidableEq, Repr

/-- Library error `redis.Nil`, the reply to a `GET` of an absent key. -/
def redisNil : GoError := GoError.other "redis: nil"

/-- Library call `r.Get(c, k).Result()`. -/
def RedisClient.Get (r : RedisClient) (_c : Context) (k : String) : String × Option GoError :=
  match r.fault with
  | some e => ("", some e)
  | none =>
    match r.data.lookup k with
    | none => ("", some redisNil)
    | some v => (v, none)

/-- Library call `r.Set(c, k, v, -1).Err()`. -/
def RedisClient.Set (r : RedisClient) (_c : Context) (k v : String) : Option GoError × RedisClient :=
  match r.fault with
  | some e => (some e, r)
  | none => (none, ⟨(k, v) :: r.data.filter (fun p => p.1 != k), none⟩)

/-- Method `DefaultRedisCacheImpl.GetItem` (lines 111-117). -/
def DefaultRedisCacheImpl.GetItem (c : Context) (k : String) (d : RedisClient) :
    (String × Option GoError) × RedisClient :=
  match d.Get c k with
  | (_, some _) => (("", some ErrRedisNotFound), d)
  | (v, none) => ((v, none), d)

/-- Method `DefaultRedisCacheImpl.SetItem` (lines 119-125). -/
def DefaultRedisCacheImpl.SetItem (c : Context) (k : String) (v : String) (d : RedisClient) :
    Option GoError × RedisClient :=
  match d.Set c k v with
  | (some err, d1) => (some err, d1)
  | (none, d1) => (none, d1)

/-- The default Remote Tier, as built by `NewDefaultRedisCacheV2`. -/
def DefaultRedisCacheImpl : RedisCache String String RedisClient :=
  ⟨DefaultRedisCacheImpl.GetItem, DefaultRedisCacheImpl.SetItem⟩

/-! ## A custom adapter -/

/-- A custom tier over any key and value type: a finite map that answers an
absent key with `(zero, notFound)`, and whose `SetItem` stores the value, or,
when `writeErr` is an error, fails with it and stores nothing. -/
def mapCache {K V : Type} [DecidableEq K] (zero : V) (notFound : GoError)
    (writeErr : Option GoError) : Cache K V (List (K × V)) where
  GetItem _ k s :=
    match s.lookup k with
    | none => ((zero, some notFound), s)
    | some v => ((v, none), s)
  SetItem _ k v s :=
    match writeErr with
    | some e => (some e, s)
    | none => (none, (k, v) :: s.filter (fun p => decide (p.1 ≠ k)))

/-- The calls recorded in `w1` since `w0`. -/
def newCalls {K V SL SR : Type} (w0 w1 : World K V SL SR) : List (Event K V) :=
  w1.trace.drop w0.trace.length

/-! ## Concrete configurations -/

/-- The context used in the concrete runs. -/
def ctx0 : Context := ⟨0⟩

/-- The orchestrator over the two default adapters, as `NewDefaultFusionCache` builds it. -/
def defaultFusion : FusionCache String String GoCacheStore RedisClient :=
  New DefaultMemoryCacheImpl DefaultRedisCacheImpl

/-- Both default tiers empty, the remote server reachable, no call made yet. -/
def emptyWorld : World String String GoCacheStore RedisClient :=
  ⟨[], ⟨[], none⟩, []⟩

/-- The default Local Tier holds `"v"` for `"k"`. -/
def localHitWorld : World String String GoCacheStore RedisClient :=
  ⟨[("k", "v")], ⟨[], none⟩, []⟩

/-- Only the remote server holds `"v"` for `"k"`. -/
def remoteHitWorld : World String String GoCacheStore RedisClient :=
  ⟨[], ⟨[("k", "v")], none⟩, []⟩

/-- Both default tiers empty and the remote server unreachable. -/
def remoteDownWorld : World String String GoCacheStore RedisClient :=
  ⟨[], ⟨[], some (GoError.other "dial tcp: connection refused")⟩, []⟩

/-- A loader that succeeds with `"v"`. -/
def loaderV : Loader String String := fun _ => ("v", none)

/-- A loader that fails with the error `boom`. -/
def loaderBoom : Loader String String := fun _ => ("", some (GoError.other "boom"))

/-- Two custom tiers over values of type `any`. -/
def anyFusion :
    FusionCache String AnyString (List (String × AnyString)) (List (String × AnyString)) :=
  New (mapCache AnyString.nil ErrMemoryNotFound none) (mapCache AnyString.nil ErrRedisNotFound none)

/-- The custom Remote Tier holds the nil value for `"k"`; the custom Local Tier is empty. -/
def nilCachedWorld :
    World String AnyString (List (String × AnyString)) (List (String × AnyString)) :=
  ⟨[], [("k", AnyString.nil)], []⟩

/-- A custom Local Tier that rejects every write, over the default Remote Tier. -/
def readOnlyLocalFusion : FusionCache String String (List (String × String)) RedisClient :=
  New (mapCache "" ErrMemoryNotFound (some (GoError.other "local store is read-only")))
    DefaultRedisCacheImpl

/-- The read-only Local Tier is empty and the remote server holds `"v"` for `"k"`. -/
def readOnlyLocalWorld : World String String (List (String × String)) RedisClient :=
  ⟨[], ⟨[("k", "v")], none⟩, []⟩

/-- A custom Local Tier that answers an absent key with `ErrRedisNotFound`, over
the default Remote Tier. -/
def wrongSentinelLocalFusion : FusionCache String String (List (String × String)) RedisClient :=
  New (mapCache "" ErrRedisNotFound none) DefaultRedisCacheImpl

/-- The default Local Tier over a custom Remote Tier that answers an absent key
with `ErrMemoryNotFound`. -/
def wrongSentinelRemoteFusion : FusionCache String String GoCacheStore (List (String × String)) :=
  New DefaultMemoryCacheImpl (mapCache "" ErrMemoryNotFound none)

/-- The context a call was given: a tier call carries one, a loader call
(`loader(k)`, line 61) carries none. -/
def Event.context {K V : Type} : Event K V → Option Context
  | Event.localGet c _ => some c
  | Event.localSet c _ _ => some c
  | Event.remoteGet c _ => some c
  | Event.remoteSet c _ _ => some c
  | Event.loaderCall _ _ => none

/-! ## Construction of the default Remote Tier -/

/-- Method `Error()` of an error value. -/
def GoError.Error : GoError → String
  | GoError.memoryNotFound => "memory not found"
  | GoError.redisNotFound => "redis not found"
  | GoError.other text => text
  | GoError.wrap text _ => text

/-- The struct `redis.Options`: the two fields `NewDefaultRedisCache` reads,
some of the connection fields, and the remaining fields gathered in `others`. -/
structure RedisOptions where
  Addr : String
  Username : String
  Password : String
  DB : Int
  MinIdleConns : Int
  PoolSize : Int
  others : List (String × String)
  deriving DecidableEq, Repr

/-- Function `NewDefaultRedisCache(dsn)` (lines 131-144), over the two library
functions it calls: `redis.ParseURL` and `redis.NewClient`. A parse failure
panics at line 134. Otherwise the two pool fields are defaulted and the record
is handed to `redis.NewClient` at line 143; the result is what that call gives,
the client of the adapter or the panic of the library. -/
def NewDefaultRedisCache {C : Type} (parseURL : String → Except GoError RedisOptions)
    (newClient : RedisOptions → Except String C) (dsn : String) : Except String C :=
  match parseURL dsn with
  | Except.error err => Except.error ("failed to parse redis url, got error " ++ err.Error)
  | Except.ok redisOptions =>
    let o1 : RedisOptions :=
      if redisOptions.MinIdleConns = 0 then
        ⟨redisOptions.Addr, redisOptions.Username, redisOptions.Password, redisOptions.DB,
          1, redisOptions.PoolSize, redisOptions.others⟩
      else redisOptions
    let o2 : RedisOptions :=
      if o1.PoolSize = 0 then
        ⟨o1.Addr, o1.Username, o1.Password, o1.DB, o1.MinIdleConns, 10, o1.others⟩
      else o1
    newClient o2

/-! ## More concrete configurations -/

/-- A loader that succeeds with `"w"`. -/
def loaderW : Loader String String := fun _ => ("w", none)

/-- Both custom tiers over `any` empty, no call made yet. -/
def anyEmptyWorld :
    World String AnyString (List (String × AnyString)) (List (String × AnyString)) :=
  ⟨[], [], []⟩

/-- The remote server holds the empty string for `"k"`; the default Local Tier is empty. -/
def remoteEmptyStringWorld : World String String GoCacheStore RedisClient :=
  ⟨[], ⟨[("k", "")], none⟩, []⟩

/-- The remote server after another writer has stored `"fresh"` for `"k"`. -/
def refreshedRemote : RedisClient := ⟨[("k", "fresh")], none⟩

/-- A parse of `redis://:@127.0.0.1:6379/0`, which sets neither pool field, of
one connection string that sets both, and of one that sets a negative pool
size; any other string is rejected. -/
def parseSample (dsn : String) : Except GoError RedisOptions :=
  if dsn = "redis://:@127.0.0.1:6379/0" then
    Except.ok ⟨"127.0.0.1:6379", "", "", 0, 0, 0, []⟩
  else if dsn = "redis://127.0.0.1:6379/1?min_idle_conns=3&pool_size=20" then
    Except.ok ⟨"127.0.0.1:6379", "", "", 1, 3, 20, []⟩
  else if dsn = "redis://127.0.0.1:6379/0?pool_size=-5" then
    Except.ok ⟨"127.0.0.1:6379", "", "", 0, 0, -5, []⟩
  else
    Except.error (GoError.other "redis: invalid URL scheme")

/-- A `redis.NewClient` that panics on a negative pool size, where the library
makes a channel of that size, and otherwise gives a client of a reachable
server that holds no key. -/
def newClientSample (o : RedisOptions) : Except String RedisClient :=
  if o.PoolSize < 0 then Except.error "makechan: size out of range"
  else Except.ok ⟨[], none⟩

/-! ## The paths of `Get` and `Set` -/

section Paths

variable {K V SL SR : Type}

/-- Local hit: `Get` returns at line 46 after the single Local `GetItem`. -/
theorem Get_of_local_hit [GoValue V] (fc : FusionCache K V SL SR) (c : Context) (k : K)
    (loaders : List (Loader K V)) (w : World K V SL SR) (v : V)
    (hit : (fc.mc.GetItem c k w.mc).1 = (v, none)) :
    fc.Get c k loaders w =
      (Outcome.returned v none,
        ⟨(fc.mc.GetItem c k w.mc).2, w.rc, w.trace ++ [Event.localGet c k]⟩) := by
  simp [FusionCache.Get, FusionCache.mcGetItem, hit]

/-- Local error that is not a miss: `Get` returns at line 50. -/
theorem Get_of_local_error [GoValue V] (fc : FusionCache K V SL SR) (c : Context) (k : K)
    (loaders : List (Loader K V)) (w : World K V SL SR) (v : V) (e : GoError)
    (hloc : (fc.mc.GetItem c k w.mc).1 = (v, some e))
    (hnot : errorsIs (some e) ErrMemoryNotFound = false) :
    fc.Get c k loaders w =
      (Outcome.returned v (some e),
        ⟨(fc.mc.GetItem c k w.mc).2, w.rc, w.trace ++ [Event.localGet c k]⟩) := by
  simp [FusionCache.Get, FusionCache.mcGetItem, hloc, hnot]

/-- Local miss, Remote error that is not a miss: `Get` returns at line 55. -/
theorem Get_of_remote_error [GoValue V] (fc : FusionCache K V SL SR) (c : Context) (k : K)
    (loaders : List (Loader K V)) (w : World K V SL SR) (v0 v : V) (e0 e : GoError)
    (hloc : (fc.mc.GetItem c k w.mc).1 = (v0, some e0))
    (hmiss : errorsIs (some e0) ErrMemoryNotFound = true)
    (hrem : (fc.rc.GetItem c k w.rc).1 = (v, some e))
    (hnot : errorsIs (some e) ErrRedisNotFound = false) :
    fc.Get c k loaders w =
      (Outcome.returned v (some e),
        ⟨(fc.mc.GetItem c k w.mc).2, (fc.rc.GetItem c k w.rc).2,
          w.trace ++ [Event.localGet c k, Event.remoteGet c k]⟩) := by
  simp [FusionCache.Get, FusionCache.mcGetItem, FusionCache.rcGetItem, hloc, hmiss, hrem, hnot]

/-- Local miss, then a Remote answer `(v, err)` that passes line 54 with `v` not
the nil interface: the presence check of line 57 holds, `v` is written to the
Local Tier at line 58 and `Get` returns `(v, nil)` at line 75, whatever that
write returned. -/
theorem Get_of_present [GoValue V] (fc : FusionCache K V SL SR) (c : Context) (k : K)
    (loaders : List (Loader K V)) (w : World K V SL SR) (v0 v : V) (e0 : GoError)
    (err : Option GoError)
    (hloc : (fc.mc.GetItem c k w.mc).1 = (v0, some e0))
    (hmiss : errorsIs (some e0) ErrMemoryNotFound = true)
    (hrem : (fc.rc.GetItem c k w.rc).1 = (v, err))
    (hsoft : err = none ∨ errorsIs err ErrRedisNotFound = true)
    (hval : GoValue.isNilInterface v = false) :
    fc.Get c k loaders w =
      (Outcome.returned v none,
        ⟨(fc.mc.SetItem c k v (fc.mc.GetItem c k w.mc).2).2, (fc.rc.GetItem c k w.rc).2,
          w.trace ++ [Event.localGet c k, Event.remoteGet c k, Event.localSet c k v]⟩) := by
  have hgate : (err.isSome && !errorsIs err ErrRedisNotFound) = false := by
    rcases hsoft with h | h
    · simp [h]
    · simp [h]
  simp [FusionCache.Get, FusionCache.mcGetItem, FusionCache.rcGetItem, FusionCache.mcSetItem,
    reflectValueOf, ReflectValue.Interface, hloc, hmiss, hrem, hgate, hval]

/-- Local miss, then a Remote answer `(v, err)` that passes line 54 with `v` the
nil interface: line 57 panics. -/
theorem Get_of_nil_interface [GoValue V] (fc : FusionCache K V SL SR) (c : Context) (k : K)
    (loaders : List (Loader K V)) (w : World K V SL SR) (v0 v : V) (e0 : GoError)
    (err : Option GoError)
    (hloc : (fc.mc.GetItem c k w.mc).1 = (v0, some e0))
    (hmiss : errorsIs (some e0) ErrMemoryNotFound = true)
    (hrem : (fc.rc.GetItem c k w.rc).1 = (v, err))
    (hsoft : err = none ∨ errorsIs err ErrRedisNotFound = true)
    (hval : GoValue.isNilInterface v = true) :
    fc.Get c k loaders w =
      (Outcome.panicked "reflect: call of reflect.Value.Interface on zero Value",
        ⟨(fc.mc.GetItem c k w.mc).2, (fc.rc.GetItem c k w.rc).2,
          w.trace ++ [Event.localGet c k, Event.remoteGet c k]⟩) := by
  have hgate : (err.isSome && !errorsIs err ErrRedisNotFound) = false := by
    rcases hsoft with h | h
    · simp [h]
    · simp [h]
  simp [FusionCache.Get, FusionCache.mcGetItem, FusionCache.rcGetItem,
    reflectValueOf, ReflectValue.Interface, hloc, hmiss, hrem, hgate, hval]

/-- Local write fails: `Set` returns at line 81. -/
theorem Set_of_local_error (fc : FusionCache K V SL SR) (c : Context) (k : K) (v : V)
    (w : World K V SL SR) (e : GoError)
    (hloc : (fc.mc.SetItem c k v w.mc).1 = some e) :
    fc.Set c k v w =
      (some e, ⟨(fc.mc.SetItem c k v w.mc).2, w.rc, w.trace ++ [Event.localSet c k v]⟩) := by
  simp [FusionCache.Set, FusionCache.mcSetItem, hloc]

/-- Local write succeeds: `Set` returns what the Remote write returned. -/
theorem Set_of_local_ok (fc : FusionCache K V SL SR) (c : Context) (k : K) (v : V)
    (w : World K V SL SR)
    (hloc : (fc.mc.SetItem c k v w.mc).1 = none) :
    fc.Set c k v w =
      ((fc.rc.SetItem c k v w.rc).1,
        ⟨(fc.mc.SetItem c k v w.mc).2, (fc.rc.SetItem c k v w.rc).2,
          w.trace ++ [Event.localSet c k v, Event.remoteSet c k v]⟩) := by
  cases hrem : (fc.rc.SetItem c k v w.rc).1 <;>
    simp [FusionCache.Set, FusionCache.mcSetItem, FusionCache.rcSetItem, hloc, hrem]

end Paths

/-! ## Reading: the Local Tier answers -/

section ClaimsGetLocal

variable {K V SL SR : Type}

/-- C1, local-hit short-circuit: if the Local Tier answers `GetItem(k)` with
`(v, nil)`, then `Get(k, loaders...)` returns `(v, nil)`, the only call it makes
is that `GetItem` (so no call on the Remote Tier, no `SetItem` and no loader),
and the Remote Tier is left in the state it had. -/
theorem C1_local_hit_short_circuit [GoValue V] (fc : FusionCache K V SL SR) (c : Context)
    (k : K) (loaders : List (Loader K V)) (w : World K V SL SR) (v : V)
    (hit : (fc.mc.GetItem c k w.mc).1 = (v, none)) :
    (fc.Get c k loaders w).1 = Outcome.returned v none ∧
    (fc.Get c k loaders w).2.trace = w.trace ++ [Event.localGet c k] ∧
    (∀ ev ∈ newCalls w (fc.Get c k loaders w).2,
      ev.isRemote = false ∧ ev.isSet = false ∧ ev.isLoader = false) ∧
    (fc.Get c k loaders w).2.rc = w.rc ∧
    (fc.Get c k loaders w).2.mc = (fc.mc.GetItem c k w.mc).2 := by
  rw [Get_of_local_hit fc c k loaders w v hit]
  simp [newCalls, Event.isRemote, Event.isSet, Event.isLoader]

/-- C1 at the default adapters with `"v"` cached locally and a loader supplied. -/
theorem C1_local_hit_short_circuit_witness :
    (defaultFusion.Get ctx0 "k" [loaderV] localHitWorld).1 = Outcome.returned "v" none ∧
    (defaultFusion.Get ctx0 "k" [loaderV] localHitWorld).2.trace
      = localHitWorld.trace ++ [Event.localGet ctx0 "k"] :=
  have h := C1_local_hit_short_circuit defaultFusion ctx0 "k" [loaderV] localHitWorld "v"
    (by decide)
  ⟨h.1, h.2.1⟩

/-- C7, Local operational-error fail-fast: if the Local Tier answers
`GetItem(k)` with an error `e` for which `errors.Is(e, ErrMemoryNotFound)` is
false, then `Get(k, loaders...)` returns that `e`, the only call it makes is
that `GetItem` (so no call on the Remote Tier, no `SetItem` and no loader), and
the Remote Tier is left in the state it had. `ErrRedisNotFound` is such an `e`. -/
theorem C7_local_error_fail_fast [GoValue V] (fc : FusionCache K V SL SR) (c : Context)
    (k : K) (loaders : List (Loader K V)) (w : World K V SL SR) (v : V) (e : GoError)
    (hloc : (fc.mc.GetItem c k w.mc).1 = (v, some e))
    (hnot : errorsIs (some e) ErrMemoryNotFound = false) :
    errorsIs (some ErrRedisNotFound) ErrMemoryNotFound = false ∧
    (fc.Get c k loaders w).1 = Outcome.returned v (some e) ∧
    (fc.Get c k loaders w).2.trace = w.trace ++ [Event.localGet c k] ∧
    (∀ ev ∈ newCalls w (fc.Get c k loaders w).2,
      ev.isRemote = false ∧ ev.isSet = false ∧ ev.isLoader = false) ∧
    (fc.Get c k loaders w).2.rc = w.rc := by
  rw [Get_of_local_error fc c k loaders w v e hloc hnot]
  refine ⟨by decide, ?_⟩
  simp [newCalls, Event.isRemote, Event.isSet, Event.isLoader]

/-- C7 at a Local Tier that answers with `ErrRedisNotFound`. -/
theorem C7_local_error_fail_fast_witness :
    (wrongSentinelLocalFusion.Get ctx0 "k" [loaderV] remoteHitWorld).1
      = Outcome.returned "" (some ErrRedisNotFound) ∧
    (wrongSentinelLocalFusion.Get ctx0 "k" [loaderV] remoteHitWorld).2.trace
      = remoteHitWorld.trace ++ [Event.localGet ctx0 "k"] :=
  have h := C7_local_error_fail_fast wrongSentinelLocalFusion ctx0 "k" [loaderV]
    remoteHitWorld "" ErrRedisNotFound (by decide) (by decide)
  ⟨h.2.1, h.2.2.1⟩

end ClaimsGetLocal

/-! ## Reading: the Local Tier misses -/

section ClaimsGetRemote

variable {K V SL SR : Type}

/-- C2 as stated fails for a value that is the nil interface: with `V = any`, a
Local Tier that misses `"k"`, a Remote Tier that answers `(nil, nil)` and a
Local `SetItem` that succeeds and stores what it is given, `Get("k")` panics at
line 57 instead of returning `(nil, nil)`, and the Local Tier is not written. -/
theorem C2_nil_interface_counterexample :
    (anyFusion.mc.GetItem ctx0 "k" nilCachedWorld.mc).1
      = (AnyString.nil, some ErrMemoryNotFound) ∧
    (anyFusion.rc.GetItem ctx0 "k" nilCachedWorld.rc).1 = (AnyString.nil, none) ∧
    (anyFusion.mc.SetItem ctx0 "k" AnyString.nil nilCachedWorld.mc).1 = none ∧
    (anyFusion.mc.GetItem ctx0 "k"
      (anyFusion.mc.SetItem ctx0 "k" AnyString.nil nilCachedWorld.mc).2).1
      = (AnyString.nil, none) ∧
    (anyFusion.Get ctx0 "k" [] nilCachedWorld).1
      = Outcome.panicked "reflect: call of reflect.Value.Interface on zero Value" ∧
    (anyFusion.Get ctx0 "k" [] nilCachedWorld).1 ≠ Outcome.returned AnyString.nil none ∧
    (anyFusion.mc.GetItem ctx0 "k" (anyFusion.Get ctx0 "k" [] nilCachedWorld).2.mc).1
      ≠ (AnyString.nil, none) := by
  decide

/-- C2 amended, promote-on-read: if the Local Tier reports a miss (an error
matching `ErrMemoryNotFound`), the Remote Tier answers `GetItem(k)` with
`(v, nil)` where `v` is not the nil interface (every `v` of a non-interface type
such as `string`, the empty string included), and the Local Tier returns `v`
for `k` once `SetItem(k, v)` has run, then `Get(k, loaders...)` returns
`(v, nil)`, it made exactly the calls Local `GetItem`, Remote `GetItem`, Local
`SetItem(k, v)`, and afterwards the Local Tier returns `v` for `k`. -/
theorem C2_promote_on_read [GoValue V] (fc : FusionCache K V SL SR) (c c1 : Context)
    (k : K) (loaders : List (Loader K V)) (w : World K V SL SR) (v0 v : V) (e0 : GoError)
    (hloc : (fc.mc.GetItem c k w.mc).1 = (v0, some e0))
    (hmiss : errorsIs (some e0) ErrMemoryNotFound = true)
    (hrem : (fc.rc.GetItem c k w.rc).1 = (v, none))
    (hval : GoValue.isNilInterface v = false)
    (hstore : (fc.mc.GetItem c1 k (fc.mc.SetItem c k v (fc.mc.GetItem c k w.mc).2).2).1
      = (v, none)) :
    (fc.Get c k loaders w).1 = Outcome.returned v none ∧
    (fc.Get c k loaders w).2.trace
      = w.trace ++ [Event.localGet c k, Event.remoteGet c k, Event.localSet c k v] ∧
    (fc.mc.GetItem c1 k (fc.Get c k loaders w).2.mc).1 = (v, none) := by
  rw [Get_of_present fc c k loaders w v0 v e0 none hloc hmiss hrem (Or.inl rfl) hval]
  exact ⟨rfl, rfl, hstore⟩

/-- C2 amended at the default adapters with `"v"` held by the remote server only. -/
theorem C2_promote_on_read_witness :
    (defaultFusion.Get ctx0 "k" [] remoteHitWorld).1 = Outcome.returned "v" none ∧
    (defaultFusion.mc.GetItem ctx0 "k" (defaultFusion.Get ctx0 "k" [] remoteHitWorld).2.mc).1
      = ("v", none) :=
  have h := C2_promote_on_read defaultFusion ctx0 ctx0 "k" [] remoteHitWorld "" "v"
    ErrMemoryNotFound (by decide) (by decide) (by decide) (by decide) (by decide)
  ⟨h.1, h.2.2⟩

/-- C3 fails on the code: at the default adapters with both tiers empty and a
single loader that returns `("v", nil)`, the Local Tier reports
`ErrMemoryNotFound` and the Remote Tier reports `("", ErrRedisNotFound)`, yet
`Get("k", g)` returns `("", nil)`: the presence check of line 57 holds for
`""`, so `""` is written to the Local Tier, the loader is not invoked, and the
Remote Tier holds nothing for `"k"`. -/
theorem C3_loader_not_reached :
    (defaultFusion.mc.GetItem ctx0 "k" emptyWorld.mc).1 = ("", some ErrMemoryNotFound) ∧
    (defaultFusion.rc.GetItem ctx0 "k" emptyWorld.rc).1 = ("", some ErrRedisNotFound) ∧
    loaderV "k" = ("v", none) ∧
    (defaultFusion.Get ctx0 "k" [loaderV] emptyWorld).1 = Outcome.returned "" none ∧
    (defaultFusion.Get ctx0 "k" [loaderV] emptyWorld).2.trace
      = [Event.localGet ctx0 "k", Event.remoteGet ctx0 "k", Event.localSet ctx0 "k" ""] ∧
    (defaultFusion.mc.GetItem ctx0 "k"
      (defaultFusion.Get ctx0 "k" [loaderV] emptyWorld).2.mc).1 = ("", none) ∧
    (defaultFusion.rc.GetItem ctx0 "k"
      (defaultFusion.Get ctx0 "k" [loaderV] emptyWorld).2.rc).1
      = ("", some ErrRedisNotFound) := by
  decide

/-- C8, Remote operational-error fail-fast: if the Local Tier reports a miss and
the Remote Tier answers `GetItem(k)` with an error `e` for which
`errors.Is(e, ErrRedisNotFound)` is false, then `Get(k, loaders...)` returns
that `e`, and the only calls it makes are the two `GetItem`s (no `SetItem` on
either tier, no loader). `ErrMemoryNotFound` is such an `e`. -/
theorem C8_remote_error_fail_fast [GoValue V] (fc : FusionCache K V SL SR) (c : Context)
    (k : K) (loaders : List (Loader K V)) (w : World K V SL SR) (v0 v : V) (e0 e : GoError)
    (hloc : (fc.mc.GetItem c k w.mc).1 = (v0, some e0))
    (hmiss : errorsIs (some e0) ErrMemoryNotFound = true)
    (hrem : (fc.rc.GetItem c k w.rc).1 = (v, some e))
    (hnot : errorsIs (some e) ErrRedisNotFound = false) :
    errorsIs (some ErrMemoryNotFound) ErrRedisNotFound = false ∧
    (fc.Get c k loaders w).1 = Outcome.returned v (some e) ∧
    (fc.Get c k loaders w).2.trace
      = w.trace ++ [Event.localGet c k, Event.remoteGet c k] ∧
    (∀ ev ∈ newCalls w (fc.Get c k loaders w).2,
      ev.isSet = false ∧ ev.isLoader = false) := by
  rw [Get_of_remote_error fc c k loaders w v0 v e0 e hloc hmiss hrem hnot]
  refine ⟨by decide, ?_⟩
  simp [newCalls, Event.isSet, Event.isLoader]

/-- C8 at a Remote Tier that answers with `ErrMemoryNotFound`. -/
theorem C8_remote_error_fail_fast_witness :
    (wrongSentinelRemoteFusion.Get ctx0 "k" [loaderV] ⟨[], [], []⟩).1
      = Outcome.returned "" (some ErrMemoryNotFound) ∧
    (wrongSentinelRemoteFusion.Get ctx0 "k" [loaderV] ⟨[], [], []⟩).2.trace
      = [] ++ [Event.localGet ctx0 "k", Event.remoteGet ctx0 "k"] :=
  have h := C8_remote_error_fail_fast wrongSentinelRemoteFusion ctx0 "k" [loaderV]
    ⟨[], [], []⟩ "" "" ErrMemoryNotFound ErrMemoryNotFound
    (by decide) (by decide) (by decide) (by decide)
  ⟨h.2.1, h.2.2.1⟩

/-- C9 fails on the code: with a Local Tier that misses `"k"` and rejects every
write with an error, and a Remote Tier that answers `("v", nil)`, the promoting
`SetItem("k", "v")` of line 58 is issued and fails, and `Get("k")` returns
`("v", nil)` at line 75: the error is dropped. -/
theorem C9_promote_error_dropped :
    (readOnlyLocalFusion.mc.GetItem ctx0 "k" readOnlyLocalWorld.mc).1
      = ("", some ErrMemoryNotFound) ∧
    (readOnlyLocalFusion.rc.GetItem ctx0 "k" readOnlyLocalWorld.rc).1 = ("v", none) ∧
    (readOnlyLocalFusion.mc.SetItem ctx0 "k" "v" readOnlyLocalWorld.mc).1
      = some (GoError.other "local store is read-only") ∧
    (readOnlyLocalFusion.Get ctx0 "k" [] readOnlyLocalWorld).1 = Outcome.returned "v" none ∧
    (readOnlyLocalFusion.Get ctx0 "k" [] readOnlyLocalWorld).2.trace
      = [Event.localGet ctx0 "k", Event.remoteGet ctx0 "k", Event.localSet ctx0 "k" "v"] := by
  decide

/-- C10 fails on the code: at the default adapters with both tiers empty and a
single loader that returns the error `boom`, `Get("k", g)` returns `("", nil)`:
the loader is not invoked, and `SetItem("k", "")` is performed on the Local
Tier, which then holds `""` for `"k"`. -/
theorem C10_loader_error_not_reached :
    (defaultFusion.mc.GetItem ctx0 "k" emptyWorld.mc).1 = ("", some ErrMemoryNotFound) ∧
    (defaultFusion.rc.GetItem ctx0 "k" emptyWorld.rc).1 = ("", some ErrRedisNotFound) ∧
    loaderBoom "k" = ("", some (GoError.other "boom")) ∧
    (defaultFusion.Get ctx0 "k" [loaderBoom] emptyWorld).1 = Outcome.returned "" none ∧
    (defaultFusion.Get ctx0 "k" [loaderBoom] emptyWorld).2.trace
      = [Event.localGet ctx0 "k", Event.remoteGet ctx0 "k", Event.localSet ctx0 "k" ""] ∧
    (defaultFusion.Get ctx0 "k" [loaderBoom] emptyWorld).2.mc ≠ emptyWorld.mc := by
  decide

end ClaimsGetRemote

/-! ## Writing -/

section ClaimsSet

variable {K V SL SR : Type}

/-- C4, `Set` succeeds exactly when both tier writes succeed: `Set(k, v)`
returns nil if and only if the Local `SetItem(k, v)` and the Remote
`SetItem(k, v)` both return nil; when it returns nil the calls it made are
exactly one Local `SetItem(k, v)` followed by one Remote `SetItem(k, v)`, and
each tier is in the state its `SetItem(k, v)` produced; a Local error is
returned as it is, with the Remote Tier not called and left in the state it
had; after a Local success a Remote error is returned as it is, with each tier
in the state its `SetItem(k, v)` produced. -/
theorem C4_set_nil_iff_both_writes (fc : FusionCache K V SL SR) (c : Context) (k : K) (v : V)
    (w : World K V SL SR) :
    ((fc.Set c k v w).1 = none ↔
      (fc.mc.SetItem c k v w.mc).1 = none ∧ (fc.rc.SetItem c k v w.rc).1 = none) ∧
    ((fc.Set c k v w).1 = none →
      (fc.Set c k v w).2.trace = w.trace ++ [Event.localSet c k v, Event.remoteSet c k v] ∧
      (fc.Set c k v w).2.mc = (fc.mc.SetItem c k v w.mc).2 ∧
      (fc.Set c k v w).2.rc = (fc.rc.SetItem c k v w.rc).2) ∧
    (∀ e, (fc.mc.SetItem c k v w.mc).1 = some e →
      (fc.Set c k v w).1 = some e ∧
      (fc.Set c k v w).2.trace = w.trace ++ [Event.localSet c k v] ∧
      (fc.Set c k v w).2.mc = (fc.mc.SetItem c k v w.mc).2 ∧
      (fc.Set c k v w).2.rc = w.rc) ∧
    (∀ e, (fc.mc.SetItem c k v w.mc).1 = none → (fc.rc.SetItem c k v w.rc).1 = some e →
      (fc.Set c k v w).1 = some e ∧
      (fc.Set c k v w).2.trace = w.trace ++ [Event.localSet c k v, Event.remoteSet c k v] ∧
      (fc.Set c k v w).2.mc = (fc.mc.SetItem c k v w.mc).2 ∧
      (fc.Set c k v w).2.rc = (fc.rc.SetItem c k v w.rc).2) := by
  cases hloc : (fc.mc.SetItem c k v w.mc).1 with
  | some e0 =>
    rw [Set_of_local_error fc c k v w e0 hloc]
    simp
  | none =>
    rw [Set_of_local_ok fc c k v w hloc]
    simp

/-- C5, `Set` fails fast on a Local write failure: if the Local `SetItem(k, v)`
returns an error `e`, then `Set(k, v)` returns `e`, the only call it makes is
that Local `SetItem`, and the Remote Tier is left in the state it had. -/
theorem C5_set_local_failure (fc : FusionCache K V SL SR) (c : Context) (k : K) (v : V)
    (w : World K V SL SR) (e : GoError)
    (hloc : (fc.mc.SetItem c k v w.mc).1 = some e) :
    (fc.Set c k v w).1 = some e ∧
    (fc.Set c k v w).2.trace = w.trace ++ [Event.localSet c k v] ∧
    (∀ ev ∈ newCalls w (fc.Set c k v w).2, ev.isRemote = false) ∧
    (fc.Set c k v w).2.rc = w.rc := by
  rw [Set_of_local_error fc c k v w e hloc]
  simp [newCalls, Event.isRemote]

/-- C5 at a Local Tier that rejects every write. -/
theorem C5_set_local_failure_witness :
    (readOnlyLocalFusion.Set ctx0 "k" "n" readOnlyLocalWorld).1
      = some (GoError.other "local store is read-only") ∧
    (readOnlyLocalFusion.Set ctx0 "k" "n" readOnlyLocalWorld).2.rc = readOnlyLocalWorld.rc :=
  have h := C5_set_local_failure readOnlyLocalFusion ctx0 "k" "n" readOnlyLocalWorld
    (GoError.other "local store is read-only") (by decide)
  ⟨h.1, h.2.2.2⟩

/-- C6, `Set` does not roll back: if the Local `SetItem(k, v)` succeeds and the
Remote `SetItem(k, v)` returns an error `e`, then `Set(k, v)` returns `e`, the
calls it made are exactly the Local `SetItem(k, v)` followed by the Remote
`SetItem(k, v)` (no compensating Local call), the Local Tier is in the state
its `SetItem` produced, so it returns `v` for `k` whenever it does so right
after that `SetItem`, and the Remote Tier is in the state its failed `SetItem`
produced. -/
theorem C6_set_no_rollback (fc : FusionCache K V SL SR) (c c1 : Context) (k : K) (v : V)
    (w : World K V SL SR) (e : GoError)
    (hloc : (fc.mc.SetItem c k v w.mc).1 = none)
    (hrem : (fc.rc.SetItem c k v w.rc).1 = some e)
    (hstore : (fc.mc.GetItem c1 k (fc.mc.SetItem c k v w.mc).2).1 = (v, none)) :
    (fc.Set c k v w).1 = some e ∧
    (fc.Set c k v w).2.trace = w.trace ++ [Event.localSet c k v, Event.remoteSet c k v] ∧
    (fc.Set c k v w).2.mc = (fc.mc.SetItem c k v w.mc).2 ∧
    (fc.mc.GetItem c1 k (fc.Set c k v w).2.mc).1 = (v, none) ∧
    (fc.Set c k v w).2.rc = (fc.rc.SetItem c k v w.rc).2 := by
  rw [Set_of_local_ok fc c k v w hloc]
  exact ⟨hrem, rfl, rfl, hstore, rfl⟩

/-- C6 at the default adapters with the remote server unreachable. -/
theorem C6_set_no_rollback_witness :
    (defaultFusion.Set ctx0 "k" "v" remoteDownWorld).1
      = some (GoError.other "dial tcp: connection refused") ∧
    (defaultFusion.mc.GetItem ctx0 "k" (defaultFusion.Set ctx0 "k" "v" remoteDownWorld).2.mc).1
      = ("v", none) :=
  have h := C6_set_no_rollback defaultFusion ctx0 ctx0 "k" "v" remoteDownWorld
    (GoError.other "dial tcp: connection refused") (by decide) (by decide) (by decide)
  ⟨h.1, h.2.2.2.1⟩

end ClaimsSet

/-! ## Every call of `Get`, and the loader loop -/

section WholeCall

variable {K V SL SR : Type}

/-- The calls recorded after a trace was extended. -/
theorem newCalls_of_trace (w0 w1 : World K V SL SR) (evs : List (Event K V))
    (h : w1.trace = w0.trace ++ evs) : newCalls w0 w1 = evs := by
  simp [newCalls, h]

/-- Whatever the tiers answer, the calls of one `Get` are: the Local `GetItem`
alone; or it followed by the Remote `GetItem`; or both followed by one Local
`SetItem` of the value the Remote Tier returned. -/
theorem Get_calls [GoValue V] (fc : FusionCache K V SL SR) (c : Context) (k : K)
    (loaders : List (Loader K V)) (w : World K V SL SR) :
    newCalls w (fc.Get c k loaders w).2 = [Event.localGet c k] ∨
    newCalls w (fc.Get c k loaders w).2 = [Event.localGet c k, Event.remoteGet c k] ∨
    newCalls w (fc.Get c k loaders w).2
      = [Event.localGet c k, Event.remoteGet c k,
          Event.localSet c k (fc.rc.GetItem c k w.rc).1.1] := by
  rcases hloc : (fc.mc.GetItem c k w.mc).1 with ⟨v0, err0⟩
  cases err0 with
  | none =>
    left
    rw [Get_of_local_hit fc c k loaders w v0 hloc]
    exact newCalls_of_trace _ _ _ rfl
  | some e0 =>
    cases hmiss : errorsIs (some e0) ErrMemoryNotFound with
    | false =>
      left
      rw [Get_of_local_error fc c k loaders w v0 e0 hloc hmiss]
      exact newCalls_of_trace _ _ _ rfl
    | true =>
      rcases hrem : (fc.rc.GetItem c k w.rc).1 with ⟨v, err⟩
      have hsplit : (∃ e, err = some e ∧ errorsIs (some e) ErrRedisNotFound = false) ∨
          (err = none ∨ errorsIs err ErrRedisNotFound = true) := by
        cases err with
        | none => exact Or.inr (Or.inl rfl)
        | some e =>
          cases h : errorsIs (some e) ErrRedisNotFound with
          | false => exact Or.inl ⟨e, rfl, h⟩
          | true => exact Or.inr (Or.inr rfl)
      rcases hsplit with ⟨e, he, hnot⟩ | hsoft
      · right; left
        subst he
        rw [Get_of_remote_error fc c k loaders w v0 v e0 e hloc hmiss hrem hnot]
        exact newCalls_of_trace _ _ _ rfl
      · cases hval : GoValue.isNilInterface v with
        | false =>
          right; right
          rw [Get_of_present fc c k loaders w v0 v e0 err hloc hmiss hrem hsoft hval]
          exact newCalls_of_trace _ _ _ rfl
        | true =>
          right; left
          rw [Get_of_nil_interface fc c k loaders w v0 v e0 err hloc hmiss hrem hsoft hval]
          exact newCalls_of_trace _ _ _ rfl

/-- The calls of `Set` are the Local `SetItem`, followed or not by the Remote one. -/
theorem Set_calls (fc : FusionCache K V SL SR) (c : Context) (k : K) (v : V)
    (w : World K V SL SR) :
    newCalls w (fc.Set c k v w).2 = [Event.localSet c k v] ∨
    newCalls w (fc.Set c k v w).2 = [Event.localSet c k v, Event.remoteSet c k v] := by
  cases hloc : (fc.mc.SetItem c k v w.mc).1 with
  | some e =>
    left
    rw [Set_of_local_error fc c k v w e hloc]
    exact newCalls_of_trace _ _ _ rfl
  | none =>
    right
    rw [Set_of_local_ok fc c k v w hloc]
    exact newCalls_of_trace _ _ _ rfl

/-- Every call of the loader loop is a loader call on `k`, a Local `SetItem` on
`k` under `c`, or a Remote `SetItem` on `k` under `c`: a property shared by
these three kinds of call holds of every call of the loop. -/
theorem loaderLoop_calls (fc : FusionCache K V SL SR) (c : Context) (k : K)
    (P : Event K V → Prop) (hload : ∀ i, P (Event.loaderCall i k))
    (hlocal : ∀ v, P (Event.localSet c k v)) (hremote : ∀ v, P (Event.remoteSet c k v)) :
    ∀ (loaders : List (Loader K V)) (i : Nat) (v : V) (w : World K V SL SR),
      ∃ evs, (fc.loaderLoop c k loaders i v w).2.trace = w.trace ++ evs ∧ ∀ ev ∈ evs, P ev := by
  intro loaders
  induction loaders with
  | nil =>
    intro i v w
    exact ⟨[], by simp [FusionCache.loaderLoop], by simp⟩
  | cons loader rest ih =>
    intro i v w
    rcases hres : loader k with ⟨v1, err⟩
    cases err with
    | some e =>
      refine ⟨[Event.loaderCall i k], ?_, ?_⟩
      · simp [FusionCache.loaderLoop, hres]
      · simpa using hload i
    | none =>
      cases hloc : (fc.mc.SetItem c k v1 w.mc).1 with
      | some e =>
        refine ⟨[Event.loaderCall i k, Event.localSet c k v1], ?_, ?_⟩
        · simp [FusionCache.loaderLoop, FusionCache.mcSetItem, hres, hloc]
        · simpa using ⟨hload i, hlocal v1⟩
      | none =>
        cases hrem : (fc.rc.SetItem c k v1 w.rc).1 with
        | some e =>
          refine ⟨[Event.loaderCall i k, Event.localSet c k v1, Event.remoteSet c k v1], ?_, ?_⟩
          · simp [FusionCache.loaderLoop, FusionCache.mcSetItem, FusionCache.rcSetItem,
              hres, hloc, hrem]
          · simpa using ⟨hload i, hlocal v1, hremote v1⟩
        | none =>
          obtain ⟨evs, htrace, hall⟩ := ih (i + 1) v1
            ⟨(fc.mc.SetItem c k v1 w.mc).2, (fc.rc.SetItem c k v1 w.rc).2,
              w.trace ++ [Event.loaderCall i k, Event.localSet c k v1, Event.remoteSet c k v1]⟩
          refine ⟨[Event.loaderCall i k, Event.localSet c k v1, Event.remoteSet c k v1] ++ evs,
            ?_, ?_⟩
          · simp [FusionCache.loaderLoop, FusionCache.mcSetItem, FusionCache.rcSetItem,
              hres, hloc, hrem] at htrace ⊢
            exact htrace
          · intro ev hev
            rcases List.mem_append.mp hev with h | h
            · simp at h
              rcases h with h | h | h
              · exact h ▸ hload i
              · exact h ▸ hlocal v1
              · exact h ▸ hremote v1
            · exact hall ev h

end WholeCall

/-! ## Reading: both tiers miss -/

section ClaimsDoubleMiss

variable {K V SL SR : Type}

/-- C11 fails on the code when `V` is an interface type: with `V = any`, two
empty custom tiers (the Local one reports `ErrMemoryNotFound`, the Remote one
reports `ErrRedisNotFound` with the zero value nil) and no loader, `Get("k")`
panics at line 57 instead of returning `(nil, nil)`. With `V = string` and the
default adapters the same call does return `("", nil)`. -/
theorem C11_miss_without_loader_panics :
    (anyFusion.mc.GetItem ctx0 "k" anyEmptyWorld.mc).1
      = (AnyString.nil, some ErrMemoryNotFound) ∧
    (anyFusion.rc.GetItem ctx0 "k" anyEmptyWorld.rc).1
      = (AnyString.nil, some ErrRedisNotFound) ∧
    (anyFusion.Get ctx0 "k" [] anyEmptyWorld).1
      = Outcome.panicked "reflect: call of reflect.Value.Interface on zero Value" ∧
    (anyFusion.Get ctx0 "k" [] anyEmptyWorld).1 ≠ Outcome.returned AnyString.nil none ∧
    (defaultFusion.Get ctx0 "k" [] emptyWorld).1 = Outcome.returned "" none := by
  decide

/-- C12, generators run only after a double not-found: among the calls of any
`Get`, a loader call occurs only if the Local `GetItem` returned an error
matching `ErrMemoryNotFound` and the Remote `GetItem` one matching
`ErrRedisNotFound`. It holds in the strongest form: no `Get` makes a loader
call, whatever the tiers answer (so none after an operational error of either
tier, and none after a nil error of the Remote Tier). -/
theorem C12_loaders_only_after_double_miss [GoValue V] (fc : FusionCache K V SL SR)
    (c : Context) (k : K) (loaders : List (Loader K V)) (w : World K V SL SR) :
    (∀ ev ∈ newCalls w (fc.Get c k loaders w).2, ev.isLoader = true →
      errorsIs (fc.mc.GetItem c k w.mc).1.2 ErrMemoryNotFound = true ∧
      errorsIs (fc.rc.GetItem c k w.rc).1.2 ErrRedisNotFound = true) ∧
    (∀ ev ∈ newCalls w (fc.Get c k loaders w).2, ev.isLoader = false) := by
  have hnone : ∀ ev ∈ newCalls w (fc.Get c k loaders w).2, ev.isLoader = false := by
    rcases Get_calls fc c k loaders w with h | h | h <;>
      simp [h, Event.isLoader]
  refine ⟨?_, hnone⟩
  intro ev hev hload
  rw [hnone ev hev] at hload
  exact absurd hload (by decide)

/-- C13 fails on the code: at the default adapters with both tiers empty and
two loaders of which the first returns `("v", nil)`, `Get("k", g1, g2)` returns
`("", nil)`, invokes no loader and stores `""` in the Local Tier and nothing in
the Remote Tier. The loop of lines 60-73, run by itself on the same two
loaders, does not stop at the first success either: it invokes both, writes
both values to both tiers and ends with the value of the last one. -/
theorem C13_first_loader_not_final :
    loaderV "k" = ("v", none) ∧
    (defaultFusion.Get ctx0 "k" [loaderV, loaderW] emptyWorld).1 = Outcome.returned "" none ∧
    (defaultFusion.Get ctx0 "k" [loaderV, loaderW] emptyWorld).2.trace
      = [Event.localGet ctx0 "k", Event.remoteGet ctx0 "k", Event.localSet ctx0 "k" ""] ∧
    (defaultFusion.Get ctx0 "k" [loaderV, loaderW] emptyWorld).2.mc = [("k", "")] ∧
    (defaultFusion.Get ctx0 "k" [loaderV, loaderW] emptyWorld).2.rc = emptyWorld.rc ∧
    (defaultFusion.loaderLoop ctx0 "k" [loaderV, loaderW] 0 "" emptyWorld).1
      = Outcome.returned "w" none ∧
    (defaultFusion.loaderLoop ctx0 "k" [loaderV, loaderW] 0 "" emptyWorld).2.trace
      = [Event.loaderCall 0 "k", Event.localSet ctx0 "k" "v", Event.remoteSet ctx0 "k" "v",
          Event.loaderCall 1 "k", Event.localSet ctx0 "k" "w", Event.remoteSet ctx0 "k" "w"] := by
  decide

/-- C16 as stated fails: at the default adapters with the empty string cached
remotely for `"k"` and a loader supplied, `Get("k", g)` writes `""` into the
Local Tier, returns `("", nil)` and does not invoke the loader. -/
theorem C16_empty_string_counterexample :
    (defaultFusion.mc.GetItem ctx0 "k" remoteEmptyStringWorld.mc).1
      = ("", some ErrMemoryNotFound) ∧
    (defaultFusion.rc.GetItem ctx0 "k" remoteEmptyStringWorld.rc).1 = ("", none) ∧
    (reflectValueOf "").Interface = Except.ok (some "") ∧
    (defaultFusion.Get ctx0 "k" [loaderV] remoteEmptyStringWorld).1 = Outcome.returned "" none ∧
    (defaultFusion.Get ctx0 "k" [loaderV] remoteEmptyStringWorld).2.trace
      = [Event.localGet ctx0 "k", Event.remoteGet ctx0 "k", Event.localSet ctx0 "k" ""] ∧
    (defaultFusion.Get ctx0 "k" [loaderV] remoteEmptyStringWorld).2.mc = [("k", "")] := by
  refine ⟨by decide, by decide, rfl, by decide, by decide, by decide⟩

/-- C16 amended, the empty string is classified as present: with `V = string`,
if the Local Tier reports a miss and the Remote Tier answers `GetItem(k)` with
`("", nil)`, then the presence check of line 57 holds for `""`, `Get` writes
`""` into the Local Tier, makes no loader call and returns `("", nil)`. -/
theorem C16_empty_string_is_present (fc : FusionCache K String SL SR) (c : Context) (k : K)
    (loaders : List (Loader K String)) (w : World K String SL SR) (v0 : String) (e0 : GoError)
    (hloc : (fc.mc.GetItem c k w.mc).1 = (v0, some e0))
    (hmiss : errorsIs (some e0) ErrMemoryNotFound = true)
    (hrem : (fc.rc.GetItem c k w.rc).1 = ("", none)) :
    (reflectValueOf "").Interface = Except.ok (some "") ∧
    (fc.Get c k loaders w).1 = Outcome.returned "" none ∧
    (fc.Get c k loaders w).2.trace
      = w.trace ++ [Event.localGet c k, Event.remoteGet c k, Event.localSet c k ""] ∧
    (fc.Get c k loaders w).2.mc = (fc.mc.SetItem c k "" (fc.mc.GetItem c k w.mc).2).2 ∧
    (∀ ev ∈ newCalls w (fc.Get c k loaders w).2, ev.isLoader = false) := by
  rw [Get_of_present fc c k loaders w v0 "" e0 none hloc hmiss hrem (Or.inl rfl) rfl]
  refine ⟨rfl, rfl, rfl, rfl, ?_⟩
  simp [newCalls, Event.isLoader]

/-- C16 amended at a custom Remote Tier that holds `""` for `"k"`, with a loader supplied. -/
theorem C16_empty_string_is_present_witness :
    (wrongSentinelRemoteFusion.Get ctx0 "k" [loaderBoom] ⟨[], [("k", "")], []⟩).1
      = Outcome.returned "" none ∧
    (wrongSentinelRemoteFusion.Get ctx0 "k" [loaderBoom] ⟨[], [("k", "")], []⟩).2.mc
      = (wrongSentinelRemoteFusion.mc.SetItem ctx0 "k" ""
          (wrongSentinelRemoteFusion.mc.GetItem ctx0 "k" []).2).2 :=
  have h := C16_empty_string_is_present wrongSentinelRemoteFusion ctx0 "k" [loaderBoom]
    ⟨[], [("k", "")], []⟩ "" ErrMemoryNotFound (by decide) (by decide) (by decide)
  ⟨h.2.1, h.2.2.2.1⟩

/-- C17 fails on the code: with the remote server unreachable, the client's
`Get` fails with a connection error that is not the key-absent reply
`redis.Nil`, yet `DefaultRedisCacheImpl.GetItem` returns `ErrRedisNotFound`
(line 114 maps every error to it), and `FusionCache.Get` on a Local miss treats
it as a miss: it returns `("", nil)` and caches `""` in the Local Tier. -/
theorem C17_connection_error_masked :
    (remoteDownWorld.rc.Get ctx0 "k").2 = some (GoError.other "dial tcp: connection refused") ∧
    (remoteDownWorld.rc.Get ctx0 "k").2 ≠ some redisNil ∧
    (DefaultRedisCacheImpl.GetItem ctx0 "k" remoteDownWorld.rc).1 = ("", some ErrRedisNotFound) ∧
    (defaultFusion.Get ctx0 "k" [] remoteDownWorld).1 = Outcome.returned "" none ∧
    (defaultFusion.Get ctx0 "k" [] remoteDownWorld).2.mc = [("k", "")] := by
  decide

end ClaimsDoubleMiss

/-! ## The default adapters -/

section ClaimsDefaultAdapters

variable {SR : Type}

/-- A key just written to the go-cache store is found with the value written. -/
theorem GoCacheStore.Get_Set (s : GoCacheStore) (k v : String) : (s.Set k v).Get k = some v := by
  simp [GoCacheStore.Get, GoCacheStore.Set, List.lookup]

/-- The default Local Tier never rejects a write. -/
theorem DefaultMemoryCacheImpl.SetItem_ok (c : Context) (k v : String) (d : GoCacheStore) :
    DefaultMemoryCacheImpl.SetItem c k v d = (none, d.Set k v) := rfl

/-- The default Local Tier answers a key just written with the value written. -/
theorem DefaultMemoryCacheImpl.GetItem_Set (c : Context) (k v : String) (d : GoCacheStore) :
    DefaultMemoryCacheImpl.GetItem c k (d.Set k v) = ((v, none), d.Set k v) := by
  simp [DefaultMemoryCacheImpl.GetItem, GoCacheStore.Get_Set]

/-- The default Remote Tier answers a key the server does not hold with
`("", ErrRedisNotFound)`, whether or not the server can be reached. -/
theorem DefaultRedisCacheImpl.GetItem_absent (c : Context) (k : String) (d : RedisClient)
    (habs : d.data.lookup k = none) :
    DefaultRedisCacheImpl.GetItem c k d = (("", some ErrRedisNotFound), d) := by
  cases hf : d.fault <;>
    simp [DefaultRedisCacheImpl.GetItem, RedisClient.Get, hf, habs]

/-- C14, Set/Get round trip: over the default Local Tier and any Remote Tier,
if `Set(k, v)` returns nil (the Remote Tier accepted the write) then a
following `Get(k, loaders...)` returns `(v, nil)`, and the only call that `Get`
makes is the Local `GetItem`, so the Remote Tier is not consulted. -/
theorem C14_set_get_round_trip (rc : RedisCache String String SR) (c c1 : Context)
    (k v : String) (loaders : List (Loader String String))
    (w : World String String GoCacheStore SR)
    (hset : ((New DefaultMemoryCacheImpl rc).Set c k v w).1 = none) :
    ((New DefaultMemoryCacheImpl rc).Get c1 k loaders
      ((New DefaultMemoryCacheImpl rc).Set c k v w).2).1 = Outcome.returned v none ∧
    newCalls ((New DefaultMemoryCacheImpl rc).Set c k v w).2
      ((New DefaultMemoryCacheImpl rc).Get c1 k loaders
        ((New DefaultMemoryCacheImpl rc).Set c k v w).2).2 = [Event.localGet c1 k] ∧
    ((New DefaultMemoryCacheImpl rc).Get c1 k loaders
      ((New DefaultMemoryCacheImpl rc).Set c k v w).2).2.rc
      = ((New DefaultMemoryCacheImpl rc).Set c k v w).2.rc ∧
    (rc.SetItem c k v w.rc).1 = none := by
  have hmc : ((New DefaultMemoryCacheImpl rc).Set c k v w).2.mc = w.mc.Set k v := by
    rw [Set_of_local_ok (New DefaultMemoryCacheImpl rc) c k v w rfl]
    rfl
  have hit : ((New DefaultMemoryCacheImpl rc).mc.GetItem c1 k
      ((New DefaultMemoryCacheImpl rc).Set c k v w).2.mc).1 = (v, none) := by
    rw [hmc]
    show (DefaultMemoryCacheImpl.GetItem c1 k (w.mc.Set k v)).1 = (v, none)
    rw [DefaultMemoryCacheImpl.GetItem_Set]
  have hget := Get_of_local_hit (New DefaultMemoryCacheImpl rc) c1 k loaders
    ((New DefaultMemoryCacheImpl rc).Set c k v w).2 v hit
  have hacc : (rc.SetItem c k v w.rc).1 = none := by
    rw [Set_of_local_ok (New DefaultMemoryCacheImpl rc) c k v w rfl] at hset
    exact hset
  rw [hget]
  exact ⟨rfl, newCalls_of_trace _ _ _ rfl, rfl, hacc⟩

/-- C14 at the values of the test: `Set("test", "test")` then `Get("test")` on
the default adapters. -/
theorem C14_set_get_round_trip_witness :
    (defaultFusion.Get ctx0 "test" [] (defaultFusion.Set ctx0 "test" "test" emptyWorld).2).1
      = Outcome.returned "test" none ∧
    newCalls (defaultFusion.Set ctx0 "test" "test" emptyWorld).2
      (defaultFusion.Get ctx0 "test" [] (defaultFusion.Set ctx0 "test" "test" emptyWorld).2).2
      = [Event.localGet ctx0 "test"] :=
  have h := C14_set_get_round_trip DefaultRedisCacheImpl ctx0 ctx0 "test" "test" [] emptyWorld
    (by decide)
  ⟨h.1, h.2.1⟩

/-- C18, double miss caches the empty string: at the default adapters, for a
key absent from both tiers and any loaders, `Get(k, loaders...)` makes no
loader call, writes `""` for `k` into the Local Tier and returns `("", nil)`;
a following `Get(k, loaders1...)` returns `("", nil)` after the single call
Local `GetItem`, in whatever state `rc1` the Remote Tier is by then. -/
theorem C18_double_miss_caches_empty_string (c c1 : Context) (k : String)
    (loaders loaders1 : List (Loader String String))
    (w : World String String GoCacheStore RedisClient) (rc1 : RedisClient)
    (hloc : w.mc.Get k = none) (hrem : w.rc.data.lookup k = none) :
    (defaultFusion.Get c k loaders w).1 = Outcome.returned "" none ∧
    (defaultFusion.Get c k loaders w).2.trace
      = w.trace ++ [Event.localGet c k, Event.remoteGet c k, Event.localSet c k ""] ∧
    (defaultFusion.Get c k loaders w).2.mc = w.mc.Set k "" ∧
    (defaultFusion.Get c1 k loaders1
      ⟨(defaultFusion.Get c k loaders w).2.mc, rc1, (defaultFusion.Get c k loaders w).2.trace⟩).1
      = Outcome.returned "" none ∧
    (defaultFusion.Get c1 k loaders1
      ⟨(defaultFusion.Get c k loaders w).2.mc, rc1,
        (defaultFusion.Get c k loaders w).2.trace⟩).2.trace
      = (defaultFusion.Get c k loaders w).2.trace ++ [Event.localGet c1 k] ∧
    (defaultFusion.Get c1 k loaders1
      ⟨(defaultFusion.Get c k loaders w).2.mc, rc1,
        (defaultFusion.Get c k loaders w).2.trace⟩).2.rc = rc1 := by
  have hl : (defaultFusion.mc.GetItem c k w.mc).1 = ("", some ErrMemoryNotFound) := by
    show (DefaultMemoryCacheImpl.GetItem c k w.mc).1 = ("", some ErrMemoryNotFound)
    simp [DefaultMemoryCacheImpl.GetItem, hloc]
  have hl2 : (defaultFusion.mc.GetItem c k w.mc).2 = w.mc := by
    show (DefaultMemoryCacheImpl.GetItem c k w.mc).2 = w.mc
    simp [DefaultMemoryCacheImpl.GetItem, hloc]
  have hr : (defaultFusion.rc.GetItem c k w.rc).1 = ("", some ErrRedisNotFound) := by
    show (DefaultRedisCacheImpl.GetItem c k w.rc).1 = ("", some ErrRedisNotFound)
    rw [DefaultRedisCacheImpl.GetItem_absent c k w.rc hrem]
  have hfirst := Get_of_present defaultFusion c k loaders w "" "" ErrMemoryNotFound
    (some ErrRedisNotFound) hl (by decide) hr (Or.inr (by decide)) rfl
  have hmc : (defaultFusion.Get c k loaders w).2.mc = w.mc.Set k "" := by
    rw [hfirst, hl2]
    rfl
  have hit : (defaultFusion.mc.GetItem c1 k (defaultFusion.Get c k loaders w).2.mc).1
      = ("", none) := by
    rw [hmc]
    show (DefaultMemoryCacheImpl.GetItem c1 k (w.mc.Set k "")).1 = ("", none)
    rw [DefaultMemoryCacheImpl.GetItem_Set]
  have hsecond := Get_of_local_hit defaultFusion c1 k loaders1
    ⟨(defaultFusion.Get c k loaders w).2.mc, rc1, (defaultFusion.Get c k loaders w).2.trace⟩
    "" hit
  refine ⟨?_, ?_, hmc, ?_, ?_, ?_⟩
  · rw [hfirst]
  · rw [hfirst]
  · rw [hsecond]
  · rw [hsecond]
  · rw [hsecond]

/-- C18 at both default tiers empty, two loaders, and a Remote Tier that holds
`"fresh"` for `"k"` by the time of the second `Get`. -/
theorem C18_double_miss_caches_empty_string_witness :
    (defaultFusion.Get ctx0 "k" [loaderV, loaderW] emptyWorld).1 = Outcome.returned "" none ∧
    (defaultFusion.Get ctx0 "k" [loaderV, loaderW]
      ⟨(defaultFusion.Get ctx0 "k" [loaderV, loaderW] emptyWorld).2.mc, refreshedRemote,
        (defaultFusion.Get ctx0 "k" [loaderV, loaderW] emptyWorld).2.trace⟩).1
      = Outcome.returned "" none :=
  have h := C18_double_miss_caches_empty_string ctx0 ctx0 "k" [loaderV, loaderW]
    [loaderV, loaderW] emptyWorld refreshedRemote (by decide) (by decide)
  ⟨h.1, h.2.2.2.1⟩

end ClaimsDefaultAdapters

/-! ## Contexts, Remote writes, construction -/

section ClaimsForwarding

variable {K V SL SR : Type}

/-- C15, context forwarding: every call that `Get` under `c` or `Set` under
`c` makes receives exactly `c`. The calls of `Get` are tier calls only: it
makes no loader call, and a loader, of type `func(K) (V, error)`, has no
context parameter. In the loader loop of `Get` (lines 60-73) too, every
`SetItem` on either tier receives `c`. -/
theorem C15_context_forwarded [GoValue V] (fc : FusionCache K V SL SR) (c : Context)
    (k : K) (v : V) (loaders : List (Loader K V)) (w : World K V SL SR) :
    (∀ ev ∈ newCalls w (fc.Get c k loaders w).2, ev.context = some c) ∧
    (∀ ev ∈ newCalls w (fc.Set c k v w).2, ev.context = some c) ∧
    (∀ i v0, ∀ ev ∈ newCalls w (fc.loaderLoop c k loaders i v0 w).2,
      ev.isLoader = false → ev.context = some c) := by
  refine ⟨?_, ?_, ?_⟩
  · rcases Get_calls fc c k loaders w with h | h | h <;>
      simp [h, Event.context]
  · rcases Set_calls fc c k v w with h | h <;>
      simp [h, Event.context]
  · intro i v0
    obtain ⟨evs, htrace, hall⟩ := loaderLoop_calls fc c k
      (fun ev => ev.isLoader = false → ev.context = some c)
      (fun _ h => absurd h (by simp [Event.isLoader]))
      (fun _ _ => rfl) (fun _ _ => rfl) loaders i v0 w
    rw [newCalls_of_trace _ _ evs htrace]
    exact hall

/-- C19, `Get` writes to the Remote Tier only behind a successful loader. No
`Get` issues a Remote `SetItem`, whatever the tiers answer: not on the
Local-hit path, not on an error path, not on the promote-on-read path. In the
loader loop, if an iteration makes any call on the Remote Tier then its loader
returned `(v, nil)`, the Local `SetItem(k, v)` returned nil, and the iteration
began with the calls loader, Local `SetItem(k, v)`, Remote `SetItem(k, v)`. -/
theorem C19_remote_write_only_behind_loader [GoValue V] (fc : FusionCache K V SL SR)
    (c : Context) (k : K) (loaders : List (Loader K V)) (w : World K V SL SR) :
    (∀ ev ∈ newCalls w (fc.Get c k loaders w).2,
      ∀ c1 k1 v1, ev ≠ Event.remoteSet c1 k1 v1) ∧
    (∀ (loader : Loader K V) (rest : List (Loader K V)) (i : Nat) (v0 : V),
      (∃ ev ∈ newCalls w (fc.loaderLoop c k (loader :: rest) i v0 w).2, ev.isRemote = true) →
      (loader k).2 = none ∧
      (fc.mc.SetItem c k (loader k).1 w.mc).1 = none ∧
      (newCalls w (fc.loaderLoop c k (loader :: rest) i v0 w).2).take 3
        = [Event.loaderCall i k, Event.localSet c k (loader k).1,
            Event.remoteSet c k (loader k).1]) := by
  constructor
  · rcases Get_calls fc c k loaders w with h | h | h <;>
      simp [h]
  · intro loader rest i v0 hex
    rcases hres : loader k with ⟨v1, err⟩
    cases err with
    | some e =>
      exfalso
      obtain ⟨ev, hev, hrem⟩ := hex
      have htr : (fc.loaderLoop c k (loader :: rest) i v0 w).2.trace
          = w.trace ++ [Event.loaderCall i k] := by
        simp [FusionCache.loaderLoop, hres]
      rw [newCalls_of_trace _ _ _ htr] at hev
      simp at hev
      simp [hev, Event.isRemote] at hrem
    | none =>
      cases hloc : (fc.mc.SetItem c k v1 w.mc).1 with
      | some e =>
        exfalso
        obtain ⟨ev, hev, hrem⟩ := hex
        have htr : (fc.loaderLoop c k (loader :: rest) i v0 w).2.trace
            = w.trace ++ [Event.loaderCall i k, Event.localSet c k v1] := by
          simp [FusionCache.loaderLoop, FusionCache.mcSetItem, hres, hloc]
        rw [newCalls_of_trace _ _ _ htr] at hev
        simp at hev
        rcases hev with hev | hev <;> simp [hev, Event.isRemote] at hrem
      | none =>
        refine ⟨rfl, rfl, ?_⟩
        cases hr : (fc.rc.SetItem c k v1 w.rc).1 with
        | some e =>
          have htr : (fc.loaderLoop c k (loader :: rest) i v0 w).2.trace
              = w.trace ++ [Event.loaderCall i k, Event.localSet c k v1,
                  Event.remoteSet c k v1] := by
            simp [FusionCache.loaderLoop, FusionCache.mcSetItem, FusionCache.rcSetItem,
              hres, hloc, hr]
          rw [newCalls_of_trace _ _ _ htr]
          rfl
        | none =>
          obtain ⟨evs, htrace, _⟩ := loaderLoop_calls fc c k (fun _ => True)
            (fun _ => trivial) (fun _ => trivial) (fun _ => trivial) rest (i + 1) v1
            ⟨(fc.mc.SetItem c k v1 w.mc).2, (fc.rc.SetItem c k v1 w.rc).2,
              w.trace ++ [Event.loaderCall i k, Event.localSet c k v1, Event.remoteSet c k v1]⟩
          have htr : (fc.loaderLoop c k (loader :: rest) i v0 w).2.trace
              = w.trace ++ ([Event.loaderCall i k, Event.localSet c k v1,
                  Event.remoteSet c k v1] ++ evs) := by
            simp [FusionCache.loaderLoop, FusionCache.mcSetItem, FusionCache.rcSetItem,
              hres, hloc, hr] at htrace ⊢
            exact htrace
          rw [newCalls_of_trace _ _ _ htr]
          rfl

end ClaimsForwarding

/-! ## Construction of the default Remote Tier -/

section ClaimsConstruction

/-- C20, pool-size defaults only fill unset fields: if parsing the connection
string gives the options `o`, then `NewDefaultRedisCache` builds its client by
handing `redis.NewClient` a record `o1` that is `o` with `MinIdleConns`
replaced by 1 exactly when `o.MinIdleConns = 0` and `PoolSize` replaced by 10
exactly when `o.PoolSize = 0`; a non-zero `MinIdleConns` or `PoolSize` and
every other field are those of `o`. The outcome of the construction is the
outcome of `redis.NewClient` on `o1`, a client or a panic. -/
theorem C20_pool_defaults_fill_unset {C : Type}
    (parseURL : String → Except GoError RedisOptions)
    (newClient : RedisOptions → Except String C)
    (dsn : String) (o : RedisOptions) (hparse : parseURL dsn = Except.ok o) :
    ∃ o1, NewDefaultRedisCache parseURL newClient dsn = newClient o1 ∧
      o1.MinIdleConns = (if o.MinIdleConns = 0 then 1 else o.MinIdleConns) ∧
      o1.PoolSize = (if o.PoolSize = 0 then 10 else o.PoolSize) ∧
      (o1.MinIdleConns ≠ o.MinIdleConns ↔ o.MinIdleConns = 0) ∧
      (o1.PoolSize ≠ o.PoolSize ↔ o.PoolSize = 0) ∧
      o1.Addr = o.Addr ∧ o1.Username = o.Username ∧ o1.Password = o.Password ∧
      o1.DB = o.DB ∧ o1.others = o.others := by
  refine ⟨_, by simp only [NewDefaultRedisCache, hparse]; rfl, ?_⟩
  by_cases hm : o.MinIdleConns = 0 <;> by_cases hp : o.PoolSize = 0 <;>
    simp [hm, hp]

/-- C20 at the connection string of the test, which sets neither field, where
both defaults are applied and the client is built; and at one that sets a
negative pool size, which is kept, so that the library call panics. -/
theorem C20_pool_defaults_fill_unset_witness :
    (∃ o1, NewDefaultRedisCache parseSample newClientSample "redis://:@127.0.0.1:6379/0"
        = newClientSample o1 ∧
      o1.MinIdleConns = 1 ∧ o1.PoolSize = 10 ∧ o1.Addr = "127.0.0.1:6379" ∧
      newClientSample o1 = Except.ok ⟨[], none⟩) ∧
    (∃ o1, NewDefaultRedisCache parseSample newClientSample
        "redis://127.0.0.1:6379/0?pool_size=-5" = newClientSample o1 ∧
      o1.MinIdleConns = 1 ∧ o1.PoolSize = -5 ∧
      newClientSample o1 = Except.error "makechan: size out of range") :=
  have h := C20_pool_defaults_fill_unset parseSample newClientSample
    "redis://:@127.0.0.1:6379/0" ⟨"127.0.0.1:6379", "", "", 0, 0, 0, []⟩ rfl
  have h2 := C20_pool_defaults_fill_unset parseSample newClientSample
    "redis://127.0.0.1:6379/0?pool_size=-5" ⟨"127.0.0.1:6379", "", "", 0, 0, -5, []⟩ rfl
  ⟨h.elim fun o1 ho =>
      ⟨o1, ho.1, ho.2.1, ho.2.2.1, ho.2.2.2.2.2.1, by
        have hp : o1.PoolSize = 10 := ho.2.2.1
        simp [newClientSample, hp]⟩,
    h2.elim fun o1 ho =>
      ⟨o1, ho.1, ho.2.1, ho.2.2.1, by
        have hp : o1.PoolSize = -5 := ho.2.2.1
        simp [newClientSample, hp]⟩⟩

end ClaimsConstruction

end GoFusionCache
